import Mathlib

/-!
Verification of the queue / execution-context / dispatcher / listener bridge
implemented in `Content/Python/init_unreal.py`.

The Python module is shallowly embedded:
* `ThreadSafeQueue` becomes a functional queue; the lock is modelled by the
  fact that `push` and `drain` are atomic steps of the transition system.
* Python object identity for the mutable `result` dict is modelled by `PyObj`,
  a value paired with an identity tag, and by a heap `Nat -> ExecutionContext`
  indexed by context ids, so that the listener and the scheduler observe the
  same context object.
* `exec(script, namespace)` is an opaque, injected interpreter
  `Interp : String -> PyNamespace -> ExecOutcome`.  A successful run returns
  the final namespace together with the (possibly mutated in place) contents
  of the original `result` container; a faulting run returns the exception
  text, which `traceback.format_exc` turns into the stored error string.
* `done.wait(timeout)` is modelled by a boolean parameter `fired` saying
  whether the completion event fired before the timeout elapsed.
* decoded JSON request bodies are `JsonBody` over `PyVal` values; the field
  extraction at the top of `do_POST` runs outside the try block, so it can
  raise out of the handler uncaught (a non-object body at `body.get`, a
  non-coercible timeout at `float()`), recorded as `PostOutcome.uncaught`:
  no HTTP response is sent and no queue is touched.
-/

namespace UnrealAI

/-- Dict: contents of a Python dict with string keys, as an association list. -/
abbrev Dict := List (String × String)

/-- PyObj: a Python object as a value together with its identity tag, so the
`is not` identity comparison in the dispatcher can be expressed. -/
structure PyObj where
  ident : Nat
  data : Dict
deriving DecidableEq, Repr

/-- ThreadSafeQueue: lock-protected FIFO queue (class ThreadSafeQueue).  The
lock is modelled by push and drain being single atomic steps. -/
structure ThreadSafeQueue (α : Type) where
  items : List α
deriving DecidableEq, Repr

/-- ThreadSafeQueue.push: append the item to the tail (method push). -/
def ThreadSafeQueue.push {α : Type} (q : ThreadSafeQueue α) (item : α) : ThreadSafeQueue α :=
  ⟨q.items ++ [item]⟩

/-- ThreadSafeQueue.drain: remove and return all items atomically
(method drain): returns the former contents and the emptied queue. -/
def ThreadSafeQueue.drain {α : Type} (q : ThreadSafeQueue α) : List α × ThreadSafeQueue α :=
  (q.items, ⟨[]⟩)

/-- ThreadSafeQueue.length: snapshot size under the lock (method len). -/
def ThreadSafeQueue.length {α : Type} (q : ThreadSafeQueue α) : Nat :=
  q.items.length

/-- QOp: one atomic operation on a single lane queue, for stating the
interleaving properties of push and drain. -/
inductive QOp (α : Type) where
  | push (x : α)
  | drain
deriving DecidableEq, Repr

/-- runOpsQ: the queue state after running a sequence of operations. -/
def runOpsQ {α : Type} : ThreadSafeQueue α → List (QOp α) → ThreadSafeQueue α
  | q, [] => q
  | q, QOp.push x :: rest => runOpsQ (q.push x) rest
  | q, QOp.drain :: rest => runOpsQ (q.drain).2 rest

/-- runOpsBatches: the list of batches returned by the drain calls of an
operation sequence, in order. -/
def runOpsBatches {α : Type} : ThreadSafeQueue α → List (QOp α) → List (List α)
  | _, [] => []
  | q, QOp.push x :: rest => runOpsBatches (q.push x) rest
  | q, QOp.drain :: rest => (q.drain).1 :: runOpsBatches (q.drain).2 rest

/-- pushedOf: the items pushed by an operation sequence, in push order. -/
def pushedOf {α : Type} : List (QOp α) → List α
  | [] => []
  | QOp.push x :: rest => x :: pushedOf rest
  | QOp.drain :: rest => pushedOf rest

/-- ExecutionContext: per-request context carrying script, params, result,
error and the completion event (class ExecutionContext).  The done event is
modelled by a boolean flag. -/
structure ExecutionContext where
  script : String
  params : Dict
  timeout : ℚ
  result : PyObj
  error : Option String
  done : Bool
deriving DecidableEq, Repr

/-- ExecutionContext.init: the constructor; result starts as a fresh empty
dict (identity tag rid), error is None, the done event is unset. -/
def ExecutionContext.init (script : String) (params : Dict) (timeout : ℚ) (rid : Nat) :
    ExecutionContext :=
  { script := script, params := params, timeout := timeout,
    result := ⟨rid, []⟩, error := none, done := false }

/-- timeout_message: the f-string written into error when wait times out. -/
def timeout_message (t : ℚ) : String :=
  "Execution timed out after " ++ toString t ++ "s"

/-- ExecutionContext.wait: block until completion or timeout (method wait).
The argument fired is the value returned by the done event wait call: true
iff the event was set before the timeout elapsed.  On timeout the error slot
receives the timeout message. -/
def ExecutionContext.wait (ctx : ExecutionContext) (fired : Bool) : ExecutionContext :=
  if fired then ctx
  else { ctx with error := some (timeout_message ctx.timeout) }

/-- RespBody: a JSON response body produced by the module: the 404 body,
the failure body and the success body. -/
inductive RespBody where
  | notFound
  | failure (msg : String)
  | success (result : Dict)
deriving DecidableEq, Repr

/-- pyTruthy: Python truthiness of an Optional[str]: None and the empty
string are falsy. -/
def pyTruthy : Option String → Bool
  | none => false
  | some s => !(s == "")

/-- ExecutionContext.to_response: build the response dict (method
to_response): failure with the error when error is truthy, else success with
the result contents. -/
def ExecutionContext.to_response (ctx : ExecutionContext) : RespBody :=
  if pyTruthy ctx.error then RespBody.failure (ctx.error.getD "")
  else RespBody.success ctx.result.data

/-- PyNamespace: the namespace dict handed to exec: whether unreal is bound,
the params binding, and the result binding (None when the script deleted the
name result from the namespace). -/
structure PyNamespace where
  unreal_bound : Bool
  params : Dict
  result_binding : Option PyObj
deriving DecidableEq, Repr

/-- ExecOutcome: the outcome of running exec on a script: a successful run
yields the final namespace plus the (possibly mutated in place) contents of
the original result container; a faulting run yields the exception text. -/
inductive ExecOutcome where
  | ok (ns : PyNamespace) (orig_data : Dict)
  | fault (exc : String)
deriving DecidableEq, Repr

/-- Interp: the opaque, injected payload interpreter: exec as a function of
the script and of the seeded namespace. -/
abbrev Interp := String → PyNamespace → ExecOutcome

/-- py_format_exc: model of traceback.format_exc, which always begins with
the traceback header line. -/
def py_format_exc (exc : String) : String :=
  "Traceback (most recent call last):\n" ++ exc

/-- initial_namespace: the namespace seeded by the dispatcher before exec:
the unreal handle, the context params and the context result container. -/
def initial_namespace (ctx : ExecutionContext) : PyNamespace :=
  { unreal_bound := true, params := ctx.params, result_binding := some ctx.result }

/-- execute_context: the dispatcher (function _execute_context).  Runs exec
in the seeded namespace; on success honours a reassignment of the result
binding to a different object (the `is not` identity test), otherwise keeps
the original container with its in-place mutations; on a fault stores the
formatted traceback in error.  The finally block sets done on every path. -/
def execute_context (interp : Interp) (ctx : ExecutionContext) : ExecutionContext :=
  match interp ctx.script (initial_namespace ctx) with
  | ExecOutcome.ok ns od =>
      match ns.result_binding with
      | some o =>
          if o.ident ≠ ctx.result.ident then { ctx with result := o, done := true }
          else { ctx with result := ⟨ctx.result.ident, od⟩, done := true }
      | none => { ctx with result := ⟨ctx.result.ident, od⟩, done := true }
  | ExecOutcome.fault exc =>
      { ctx with error := some (py_format_exc exc), done := true }

/-- Heap: contexts are shared between the listener thread and the scheduler
thread; the sharing is modelled by a heap from context ids to contexts. -/
abbrev Heap := Nat → ExecutionContext

/-- hUpdate: write one heap cell. -/
def hUpdate (h : Heap) (i : Nat) (c : ExecutionContext) : Heap :=
  fun j => if j = i then c else h j

/-- run_batch: the dispatch loop body of _drain_queue: execute each drained
context in batch order, updating the heap cell of each in turn. -/
def run_batch (interp : Interp) : List Nat → Heap → Heap
  | [], h => h
  | i :: rest, h => run_batch interp rest (hUpdate h i (execute_context interp (h i)))

/-- Lane: the closed set of execution lanes. -/
inductive Lane where
  | editor
  | game
deriving DecidableEq, Repr

/-- BridgeState: the module state: the two lane queues (of context ids), the
shared contexts, and a fresh-id counter for newly allocated contexts. -/
structure BridgeState where
  next_id : Nat
  heap : Heap
  editor_queue : ThreadSafeQueue Nat
  game_queue : ThreadSafeQueue Nat

/-- laneQueue: the queue of a lane (_editor_queue or _game_queue). -/
def laneQueue (st : BridgeState) : Lane → ThreadSafeQueue Nat
  | Lane.editor => st.editor_queue
  | Lane.game => st.game_queue

/-- setLaneQueue: replace the queue of a lane. -/
def setLaneQueue (st : BridgeState) : Lane → ThreadSafeQueue Nat → BridgeState
  | Lane.editor, q => { st with editor_queue := q }
  | Lane.game, q => { st with game_queue := q }

/-- drain_queue: process all pending contexts of one lane (function
_drain_queue): drain the queue, then execute every returned context in the
order returned. -/
def drain_queue (interp : Interp) (st : BridgeState) (lane : Lane) : BridgeState :=
  let pair := (laneQueue st lane).drain
  let st1 := setLaneQueue st lane pair.2
  { st1 with heap := run_batch interp pair.1 st1.heap }

/-- on_slate_post_tick: the scheduler tick callback (function
_on_slate_post_tick): drain the editor lane, then the game lane. -/
def on_slate_post_tick (interp : Interp) (st : BridgeState) : BridgeState :=
  drain_queue interp (drain_queue interp st Lane.editor) Lane.game

/-- wait_step: the listener thread calling wait on the shared context with
id i: the heap cell is replaced by the waited context. -/
def wait_step (st : BridgeState) (i : Nat) (fired : Bool) : BridgeState :=
  { st with heap := hUpdate st.heap i ((st.heap i).wait fired) }

/-- PyVal: a decoded JSON value as the handler sees it after json.loads:
null, booleans, numbers, strings, arrays and objects.  Aggregates keep only
what the bridge can store of them: object fields at the string-to-string
granularity of Dict (the type of the params slot of a context); array
elements are never read by the handler. -/
inductive PyVal where
  | null
  | boolean (b : Bool)
  | num (q : ℚ)
  | str (s : String)
  | arr
  | dict (d : Dict)
deriving DecidableEq, Repr

/-- JsonBody: a successfully decoded request body: a JSON object with its
fields, or any other JSON value (on which body.get raises). -/
inductive JsonBody where
  | obj (fields : List (String × PyVal))
  | nonObj (v : PyVal)
deriving DecidableEq, Repr

/-- py_get: dict.get(key, default) on a decoded JSON object. -/
def py_get (fields : List (String × PyVal)) (key : String) (dflt : PyVal) : PyVal :=
  (fields.lookup key).getD dflt

/-- py_float_str: the float builtin on a string: surrounding whitespace, an
optional sign and a plain decimal literal coerce; anything else fails.
Scientific notation and the special spellings (inf, nan) are not modelled
and are treated as failing; no claim depends on a string-valued timeout. -/
def py_float_str (s : String) : Option ℚ :=
  let t := s.trim
  let sign : ℚ := if t.startsWith "-" then -1 else 1
  let u := if t.startsWith "-" ∨ t.startsWith "+" then t.drop 1 else t
  match u.splitOn "." with
  | [a] => if a = "" then none else (a.toNat?).map (fun n => sign * (n : ℚ))
  | [a, b] =>
      if a = "" ∧ b = "" then none
      else
        match (if a = "" then some 0 else a.toNat?),
              (if b = "" then some 0 else b.toNat?) with
        | some na, some nb =>
            some (sign * ((na : ℚ) + (nb : ℚ) / ((10 : ℚ) ^ b.length)))
        | _, _ => none
  | _ => none

/-- py_float: the float builtin on a decoded JSON value: numbers coerce to
themselves, booleans to 0 or 1, strings parse as decimals; None, arrays and
objects raise (TypeError), modelled as none. -/
def py_float : PyVal → Option ℚ
  | PyVal.num q => some q
  | PyVal.boolean b => some (if b then 1 else 0)
  | PyVal.str s => py_float_str s
  | _ => none

/-- py_eq_str: Python equality of a decoded JSON value with a string
literal, as used by the membership test on the lane tuple: only an equal
string compares equal. -/
def py_eq_str (v : PyVal) (s : String) : Bool :=
  match v with
  | PyVal.str t => t == s
  | _ => false

/-- py_as_str: a decoded JSON value as the string slot of a context stores
it: a string is itself, any other value is kept through a printed form (the
script slot is only a key for the opaque interpreter, and exec raising on a
non-string payload is one of the faulting runs the interpreter models). -/
def py_as_str : PyVal → String
  | PyVal.str s => s
  | PyVal.null => "None"
  | PyVal.boolean true => "True"
  | PyVal.boolean false => "False"
  | PyVal.num q => toString q
  | PyVal.arr => "<list>"
  | PyVal.dict _ => "<dict>"

/-- py_params_arg: the params value as the Dict slot of a context stores
it: an object keeps its fields; the bridge itself never reads params, so a
non-object value is kept through its printed form under the empty key. -/
def py_params_arg : PyVal → Dict
  | PyVal.dict d => d
  | v => [("", py_as_str v)]

/-- extract_fields: the field extraction at the top of do_POST, lines that
run outside the try block: body.get on a non-object body raises
(AttributeError), and float() on a non-coercible timeout value raises
(TypeError or ValueError); both escape the handler uncaught, which is
modelled as none.  The three gets are total, so only the float call can
raise on an object body; it does so before the mode check. -/
def extract_fields : JsonBody → Option (PyVal × PyVal × PyVal × ℚ)
  | JsonBody.nonObj _ => none
  | JsonBody.obj fields =>
      match py_float (py_get fields "timeout" (PyVal.num 30)) with
      | none => none
      | some t =>
          some (py_get fields "mode" (PyVal.str "editor"),
            py_get fields "script" (PyVal.str ""),
            py_get fields "params" (PyVal.dict []), t)

/-- PostDecision: what the listener does for a POST request before any
queue is touched: respond with a status and body, raise uncaught out of the
handler, or enqueue on a lane. -/
inductive PostDecision where
  | reject (status : Nat) (body : RespBody)
  | crash
  | enqueue (lane : Lane) (script : String) (params : Dict) (timeout : ℚ)
deriving DecidableEq, Repr

/-- decide_post: the decision part of do_POST: unknown path gives 404, a
body that failed to decode gives 400 inside the try block, then the field
extraction runs (and may raise uncaught), then a mode outside the closed
lane set gives 400, otherwise the request is enqueued on the selected
lane. -/
def decide_post (path : String) (parsed : Except String JsonBody) : PostDecision :=
  if path ≠ "/execute" then PostDecision.reject 404 RespBody.notFound
  else
    match parsed with
    | Except.error e => PostDecision.reject 400 (RespBody.failure ("Bad request: " ++ e))
    | Except.ok body =>
      match extract_fields body with
      | none => PostDecision.crash
      | some (mode, script, params, timeout) =>
        if !(py_eq_str mode "editor" || py_eq_str mode "game") then
          PostDecision.reject 400
            (RespBody.failure ("Unknown mode: " ++ py_as_str mode
              ++ ". Use \x27editor\x27 or \x27game\x27."))
        else
          PostDecision.enqueue
            (if py_eq_str mode "editor" then Lane.editor else Lane.game)
            (py_as_str script) (py_params_arg params) timeout

/-- pushLane: push a context id onto the queue of a lane. -/
def pushLane (st : BridgeState) (lane : Lane) (cid : Nat) : BridgeState :=
  setLaneQueue st lane ((laneQueue st lane).push cid)

/-- PostOutcome: what the client gets from the handler: an HTTP response,
or no response at all because an exception escaped do_POST uncaught (the
server machinery then drops the connection). -/
inductive PostOutcome where
  | response (status : Nat) (body : RespBody)
  | uncaught
deriving DecidableEq, Repr

/-- do_POST: the listener handler (method do_POST).  On a reject decision
it responds without touching any queue; on a crash decision the exception
escapes before any queue is touched; otherwise it allocates a fresh
context, pushes its id onto the selected lane, waits (fired says whether
the done event fired before the timeout) and serializes to_response. -/
def do_POST (st : BridgeState) (path : String) (parsed : Except String JsonBody)
    (fired : Bool) : BridgeState × PostOutcome :=
  match decide_post path parsed with
  | PostDecision.reject status body => (st, PostOutcome.response status body)
  | PostDecision.crash => (st, PostOutcome.uncaught)
  | PostDecision.enqueue lane script params timeout =>
      let cid := st.next_id
      let ctx := ExecutionContext.init script params timeout cid
      let st1 := pushLane { st with next_id := cid + 1, heap := hUpdate st.heap cid ctx }
        lane cid
      let ctx1 := (st1.heap cid).wait fired
      let st2 := { st1 with heap := hUpdate st1.heap cid ctx1 }
      (st2, PostOutcome.response 200 ctx1.to_response)

/-! ## Helper lemmas -/

lemma timeout_message_ne_empty (t : ℚ) : timeout_message t ≠ "" := by
  intro h
  have hl := congrArg String.length h
  rw [timeout_message] at hl
  rw [String.length_append, String.length_append, String.length_empty] at hl
  have hs : ("s" : String).length = 1 := rfl
  rw [hs] at hl
  omega

lemma py_format_exc_ne_empty (exc : String) : py_format_exc exc ≠ "" := by
  intro h
  have hl := congrArg String.length h
  rw [py_format_exc] at hl
  rw [String.length_append, String.length_empty] at hl
  have hs : ("Traceback (most recent call last):\n" : String).length = 35 := rfl
  rw [hs] at hl
  omega

lemma pyTruthy_some_of_ne (s : String) (h : s ≠ "") : pyTruthy (some s) = true := by
  simp [pyTruthy, h]

lemma runOps_partition {α : Type} (ops : List (QOp α)) : ∀ q0 : ThreadSafeQueue α,
    (runOpsBatches q0 ops).flatten ++ (runOpsQ q0 ops).items = q0.items ++ pushedOf ops := by
  induction ops with
  | nil => intro q0; simp [runOpsQ, runOpsBatches, pushedOf]
  | cons op rest ih =>
    intro q0
    cases op with
    | push x =>
      have h := ih (q0.push x)
      simp only [runOpsQ, runOpsBatches, pushedOf]
      rw [h]
      simp [ThreadSafeQueue.push]
    | drain =>
      have h := ih (⟨[]⟩ : ThreadSafeQueue α)
      simp only [runOpsQ, runOpsBatches, pushedOf, ThreadSafeQueue.drain, List.flatten_cons]
      rw [List.append_assoc, h]
      simp

lemma runOpsQ_push_free {α : Type} (tail : List (QOp α)) :
    pushedOf tail = [] → (runOpsQ (⟨[]⟩ : ThreadSafeQueue α) tail).items = [] := by
  induction tail with
  | nil => intro _; simp [runOpsQ]
  | cons op rest ih =>
    intro h
    cases op with
    | push x => simp [pushedOf] at h
    | drain =>
      have hstep : runOpsQ (⟨[]⟩ : ThreadSafeQueue α) (QOp.drain :: rest)
          = runOpsQ (⟨[]⟩ : ThreadSafeQueue α) rest := rfl
      rw [hstep]
      exact ih (by simpa [pushedOf] using h)

lemma run_batch_apply (interp : Interp) :
    ∀ ids : List Nat, ids.Nodup → ∀ (h : Heap) (j : Nat),
      run_batch interp ids h j = if j ∈ ids then execute_context interp (h j) else h j := by
  intro ids
  induction ids with
  | nil => intro _ h j; simp [run_batch]
  | cons i rest ih =>
    intro hnd h j
    have hi : i ∉ rest := (List.nodup_cons.mp hnd).1
    have hr : rest.Nodup := (List.nodup_cons.mp hnd).2
    have hstep : run_batch interp (i :: rest) h
        = run_batch interp rest (hUpdate h i (execute_context interp (h i))) := rfl
    rw [hstep, ih hr]
    by_cases hji : j = i
    · subst hji
      simp [hUpdate, hi]
    · simp [hUpdate, hji, List.mem_cons]

/-! ## Claims -/

/-- C1: for every sequence of push and drain operations on one lane, the
batches returned by the drains, concatenated in order and followed by the
items still queued, are exactly the pushed items in push order (so every
pushed command is returned by exactly one drain, in order, never twice); and
right after a drain the queue length is zero and stays zero under any
push-free continuation. -/
theorem queue_push_drain_exactly_once {α : Type} (q0 : ThreadSafeQueue α)
    (ops tail : List (QOp α)) (htail : pushedOf tail = []) :
    (runOpsBatches q0 ops).flatten ++ (runOpsQ q0 ops).items = q0.items ++ pushedOf ops
    ∧ ThreadSafeQueue.length (q0.drain).2 = 0
    ∧ (runOpsQ (q0.drain).2 tail).items = [] := by
  refine ⟨runOps_partition ops q0, rfl, ?_⟩
  have h2 : (q0.drain).2 = (⟨[]⟩ : ThreadSafeQueue α) := rfl
  rw [h2]
  exact runOpsQ_push_free tail htail

/-- Witness for C1 at a concrete operation sequence. -/
theorem queue_push_drain_exactly_once_witness :
    pushedOf ([QOp.drain] : List (QOp Nat)) = []
    ∧ (runOpsBatches (⟨[]⟩ : ThreadSafeQueue Nat)
          [QOp.push 1, QOp.push 2, QOp.drain, QOp.push 3]).flatten
        ++ (runOpsQ (⟨[]⟩ : ThreadSafeQueue Nat)
          [QOp.push 1, QOp.push 2, QOp.drain, QOp.push 3]).items
      = (⟨[]⟩ : ThreadSafeQueue Nat).items
        ++ pushedOf [QOp.push 1, QOp.push 2, QOp.drain, QOp.push 3] :=
  ⟨by decide,
   (queue_push_drain_exactly_once (⟨[]⟩ : ThreadSafeQueue Nat)
      [QOp.push 1, QOp.push 2, QOp.drain, QOp.push 3] [QOp.drain] (by decide)).1⟩

/-- C2: the dispatcher sets the done event on every exit path of
execute_context (success, reassignment, or fault), the event is never reset
by wait, and a drained command leaves its lane queue, so it is executed at
most once per drain. -/
theorem dispatcher_always_signals (interp : Interp) (ctx : ExecutionContext)
    (fired : Bool) (st : BridgeState) (lane : Lane) :
    (execute_context interp ctx).done = true
    ∧ (ctx.wait fired).done = ctx.done
    ∧ laneQueue (drain_queue interp st lane) lane = ⟨[]⟩ := by
  refine ⟨?_, ?_, ?_⟩
  · unfold execute_context
    split
    · split
      · split <;> rfl
      · rfl
    · rfl
  · unfold ExecutionContext.wait
    split <;> rfl
  · cases lane <;> rfl

lemma setLaneQueue_heap (st : BridgeState) (lane : Lane) (q : ThreadSafeQueue Nat) :
    (setLaneQueue st lane q).heap = st.heap := by
  cases lane <;> rfl

lemma drain_queue_heap (interp : Interp) (st : BridgeState) (lane : Lane) :
    (drain_queue interp st lane).heap
      = run_batch interp ((laneQueue st lane).items) st.heap := by
  cases lane <;> rfl

lemma execute_context_error_ok (interp : Interp) (ctx : ExecutionContext)
    (ns : PyNamespace) (od : Dict)
    (h : interp ctx.script (initial_namespace ctx) = ExecOutcome.ok ns od) :
    (execute_context interp ctx).error = ctx.error := by
  cases hb : ns.result_binding with
  | none => simp [execute_context, h, hb]
  | some o =>
    simp only [execute_context, h, hb]
    split <;> rfl

lemma execute_context_error_fault (interp : Interp) (ctx : ExecutionContext) (exc : String)
    (h : interp ctx.script (initial_namespace ctx) = ExecOutcome.fault exc) :
    (execute_context interp ctx).error = some (py_format_exc exc) := by
  unfold execute_context
  rw [h]

/-- C3: a payload that faults during interpretation has its fault captured in
the error slot of its context (the full formatted traceback), the fault does
not escape the drain loop, and every command of the same drained batch is
still executed (each heap cell of the batch holds exactly the dispatched
version of its previous context). -/
theorem fault_captured_batch_continues (interp : Interp) (st : BridgeState) (lane : Lane)
    (exc : String) (i : Nat)
    (hmem : i ∈ (laneQueue st lane).items)
    (hnd : ((laneQueue st lane).items).Nodup)
    (hf : interp (st.heap i).script (initial_namespace (st.heap i)) = ExecOutcome.fault exc) :
    ((drain_queue interp st lane).heap i).error = some (py_format_exc exc)
    ∧ (∀ j ∈ (laneQueue st lane).items,
        (drain_queue interp st lane).heap j = execute_context interp (st.heap j)) := by
  have happly : ∀ j : Nat, (drain_queue interp st lane).heap j
      = if j ∈ (laneQueue st lane).items
        then execute_context interp (st.heap j) else st.heap j := by
    intro j
    rw [drain_queue_heap, run_batch_apply interp _ hnd st.heap j]
  constructor
  · rw [happly i, if_pos hmem]
    exact execute_context_error_fault interp (st.heap i) exc hf
  · intro j hj
    rw [happly j, if_pos hj]

def interpC3 : Interp := fun _ _ => ExecOutcome.fault "boom"

def ctxC3 : ExecutionContext := ExecutionContext.init "raise RuntimeError" [] 30 0

def stC3 : BridgeState := ⟨2, fun _ => ctxC3, ⟨[0, 1]⟩, ⟨[]⟩⟩

/-- Witness for C3 at a concrete state and faulting interpreter. -/
theorem fault_captured_batch_continues_witness :
    (0 ∈ (laneQueue stC3 Lane.editor).items)
    ∧ ((drain_queue interpC3 stC3 Lane.editor).heap 0).error
        = some (py_format_exc "boom") :=
  ⟨by decide,
   (fault_captured_batch_continues interpC3 stC3 Lane.editor "boom" 0
      (by decide) (by decide) rfl).1⟩

lemma wait_timeout_eq (ctx : ExecutionContext) :
    ctx.wait false = { ctx with error := some (timeout_message ctx.timeout) } := rfl

lemma to_response_of_ne_empty (ctx : ExecutionContext) (m : String)
    (he : ctx.error = some m) (hne : m ≠ "") :
    ctx.to_response = RespBody.failure m := by
  unfold ExecutionContext.to_response
  rw [he, pyTruthy_some_of_ne m hne]
  rfl

lemma timeout_message_split (t : ℚ) :
    timeout_message t = "Execution " ++ "timed out" ++ (" after " ++ toString t ++ "s") := by
  unfold timeout_message
  have h1 : ("Execution timed out after " : String)
      = "Execution " ++ "timed out" ++ " after " := by decide
  conv_lhs => rw [h1, String.append_assoc, String.append_assoc]
  conv_rhs => rw [String.append_assoc (" after ") (toString t) "s"]

/-- C4: when the done event does not fire within the timeout, wait stores a
timeout message (containing the words timed out) so the following
to_response yields a failure body; the waited command stays in its lane
untouched, a later drain still dispatches it, and a successful late run can
still populate its result. -/
theorem timeout_is_fire_and_forget (st : BridgeState) (i : Nat) (interp : Interp)
    (hq : st.editor_queue.items = [i]) :
    (∃ m, ((st.heap i).wait false).to_response = RespBody.failure m
        ∧ ∃ a b, m = a ++ "timed out" ++ b)
    ∧ (wait_step st i false).editor_queue = st.editor_queue
    ∧ (wait_step st i false).game_queue = st.game_queue
    ∧ ((drain_queue interp (wait_step st i false) Lane.editor).heap i
        = execute_context interp ((st.heap i).wait false))
    ∧ (∀ ns od,
        interp ((st.heap i).wait false).script
            (initial_namespace ((st.heap i).wait false)) = ExecOutcome.ok ns od →
        ns.result_binding = none →
        ((drain_queue interp (wait_step st i false) Lane.editor).heap i).result.data = od) := by
  have hwa : ((st.heap i).wait false).error
      = some (timeout_message (st.heap i).timeout) := rfl
  have hresp : ((st.heap i).wait false).to_response
      = RespBody.failure (timeout_message (st.heap i).timeout) :=
    to_response_of_ne_empty _ _ hwa (timeout_message_ne_empty _)
  have hdrain : (drain_queue interp (wait_step st i false) Lane.editor).heap i
      = execute_context interp ((st.heap i).wait false) := by
    rw [drain_queue_heap]
    have hitems : (laneQueue (wait_step st i false) Lane.editor).items = [i] := hq
    rw [hitems]
    have hone : run_batch interp [i] (wait_step st i false).heap
        = hUpdate (wait_step st i false).heap i
            (execute_context interp ((wait_step st i false).heap i)) := rfl
    rw [hone]
    have hcell : (wait_step st i false).heap i = (st.heap i).wait false := by
      simp [wait_step, hUpdate]
    simp [hUpdate, hcell]
  refine ⟨⟨timeout_message (st.heap i).timeout, hresp,
      "Execution ", " after " ++ toString (st.heap i).timeout ++ "s",
      timeout_message_split _⟩, rfl, rfl, hdrain, ?_⟩
  intro ns od hok hnone
  rw [hdrain]
  simp [execute_context, hok, hnone]

def interpC4 : Interp := fun _ _ =>
  ExecOutcome.ok ⟨true, [], none⟩ [("x", "2")]

def ctxC4 : ExecutionContext := ExecutionContext.init "result[x] = 2" [] 30 7

def stC4 : BridgeState := ⟨1, fun _ => ctxC4, ⟨[0]⟩, ⟨[]⟩⟩

/-- Witness for C4: a concrete timed-out request is later drained and its
result still gets populated. -/
theorem timeout_is_fire_and_forget_witness :
    stC4.editor_queue.items = [0]
    ∧ ((drain_queue interpC4 (wait_step stC4 0 false) Lane.editor).heap 0).result.data
        = [("x", "2")] :=
  ⟨by decide,
   (timeout_is_fire_and_forget stC4 0 interpC4 (by decide)).2.2.2.2
     ⟨true, [], none⟩ [("x", "2")] rfl rfl⟩

lemma decide_post_bad_body (e : String) :
    decide_post "/execute" (Except.error e)
      = PostDecision.reject 400 (RespBody.failure ("Bad request: " ++ e)) := by
  unfold decide_post
  rw [if_neg (by decide)]

lemma decide_post_crash (body : JsonBody) (hx : extract_fields body = none) :
    decide_post "/execute" (Except.ok body) = PostDecision.crash := by
  unfold decide_post
  rw [if_neg (by decide)]
  simp only []
  rw [hx]

lemma decide_post_bad_mode (body : JsonBody) (mode script params : PyVal) (t : ℚ)
    (hx : extract_fields body = some (mode, script, params, t))
    (h1 : py_eq_str mode "editor" = false) (h2 : py_eq_str mode "game" = false) :
    decide_post "/execute" (Except.ok body)
      = PostDecision.reject 400
          (RespBody.failure ("Unknown mode: " ++ py_as_str mode
            ++ ". Use \x27editor\x27 or \x27game\x27.")) := by
  unfold decide_post
  rw [if_neg (by decide)]
  simp only []
  rw [hx]
  simp only []
  rw [if_pos (by rw [h1, h2]; rfl)]

def stC5 : BridgeState := ⟨0, fun _ => ctxC3, ⟨[]⟩, ⟨[]⟩⟩

/-- C5 counterexample: the body with mode x and timeout null is inside the
scope of the claim (its mode is outside the lane set, the body decodes
fine), yet the handler raises at float() before reaching the mode check:
the outcome is no HTTP response at all, not a 400 failure body; nothing is
enqueued. -/
theorem invalid_request_rejected_counterexample :
    py_eq_str (py_get [("mode", PyVal.str "x"), ("timeout", PyVal.null)]
        "mode" (PyVal.str "editor")) "editor" = false
    ∧ py_eq_str (py_get [("mode", PyVal.str "x"), ("timeout", PyVal.null)]
        "mode" (PyVal.str "editor")) "game" = false
    ∧ extract_fields (JsonBody.obj [("mode", PyVal.str "x"), ("timeout", PyVal.null)]) = none
    ∧ (do_POST stC5 "/execute"
        (Except.ok (JsonBody.obj [("mode", PyVal.str "x"), ("timeout", PyVal.null)]))
        false).2 = PostOutcome.uncaught
    ∧ PostOutcome.uncaught
        ≠ PostOutcome.response 400
            (RespBody.failure "Unknown mode: x. Use \x27editor\x27 or \x27game\x27.")
    ∧ (do_POST stC5 "/execute"
        (Except.ok (JsonBody.obj [("mode", PyVal.str "x"), ("timeout", PyVal.null)]))
        false).1.editor_queue.items = stC5.editor_queue.items := by
  decide

/-- C5 (amended): an undecodable body is answered 400 with a failure body,
and so is a request whose field extraction succeeds but whose mode is
outside the closed lane set; a request whose field extraction raises (a
non-object body, or a timeout value float() cannot coerce) produces no
response at all; in every one of these cases nothing is enqueued: the
bridge state, in particular both lane queues and their lengths, is
unchanged. -/
theorem invalid_request_rejected_without_enqueue (st : BridgeState)
    (parsed : Except String JsonBody) (fired : Bool)
    (h : (∃ e, parsed = Except.error e)
       ∨ (∃ body mode script params t, parsed = Except.ok body
            ∧ extract_fields body = some (mode, script, params, t)
            ∧ py_eq_str mode "editor" = false ∧ py_eq_str mode "game" = false)
       ∨ (∃ body, parsed = Except.ok body ∧ extract_fields body = none)) :
    (do_POST st "/execute" parsed fired).1 = st
    ∧ (do_POST st "/execute" parsed fired).1.editor_queue.items = st.editor_queue.items
    ∧ (do_POST st "/execute" parsed fired).1.game_queue.items = st.game_queue.items
    ∧ ThreadSafeQueue.length (do_POST st "/execute" parsed fired).1.editor_queue
        = ThreadSafeQueue.length st.editor_queue
    ∧ ThreadSafeQueue.length (do_POST st "/execute" parsed fired).1.game_queue
        = ThreadSafeQueue.length st.game_queue
    ∧ (((∃ e, parsed = Except.error e)
        ∨ (∃ body mode script params t, parsed = Except.ok body
            ∧ extract_fields body = some (mode, script, params, t)
            ∧ py_eq_str mode "editor" = false ∧ py_eq_str mode "game" = false)) →
        ∃ m, (do_POST st "/execute" parsed fired).2
          = PostOutcome.response 400 (RespBody.failure m))
    ∧ (∀ body, parsed = Except.ok body → extract_fields body = none →
        (do_POST st "/execute" parsed fired).2 = PostOutcome.uncaught) := by
  have hmain : (do_POST st "/execute" parsed fired).1 = st
      ∧ (((∃ e, parsed = Except.error e)
          ∨ (∃ body mode script params t, parsed = Except.ok body
              ∧ extract_fields body = some (mode, script, params, t)
              ∧ py_eq_str mode "editor" = false ∧ py_eq_str mode "game" = false)) →
          ∃ m, (do_POST st "/execute" parsed fired).2
            = PostOutcome.response 400 (RespBody.failure m))
      ∧ (∀ body, parsed = Except.ok body → extract_fields body = none →
          (do_POST st "/execute" parsed fired).2 = PostOutcome.uncaught) := by
    rcases h with ⟨e, rfl⟩ | ⟨body, mode, script, params, t, rfl, hx, h1, h2⟩ | ⟨body, rfl, hx⟩
    · rw [do_POST, decide_post_bad_body e]
      exact ⟨rfl, fun _ => ⟨_, rfl⟩, fun body hb => Except.noConfusion hb⟩
    · rw [do_POST, decide_post_bad_mode body mode script params t hx h1 h2]
      refine ⟨rfl, fun _ => ⟨_, rfl⟩, ?_⟩
      intro body2 hb hx2
      injection hb with hbb
      rw [← hbb, hx] at hx2
      exact Option.noConfusion hx2
    · rw [do_POST, decide_post_crash body hx]
      refine ⟨rfl, ?_, fun _ _ _ => rfl⟩
      rintro (⟨e, he⟩ | ⟨body2, mode, script, params, t, hb, hx2, _, _⟩)
      · exact Except.noConfusion he
      · injection hb with hbb
        rw [← hbb, hx] at hx2
        exact Option.noConfusion hx2
  refine ⟨hmain.1, ?_, ?_, ?_, ?_, hmain.2.1, hmain.2.2⟩ <;> rw [hmain.1]

/-- Witness for C5 at a concrete request with an unknown mode whose field
extraction succeeds. -/
theorem invalid_request_rejected_without_enqueue_witness :
    (do_POST stC5 "/execute" (Except.ok (JsonBody.obj [("mode", PyVal.str "x")])) false).1
      = stC5
    ∧ ∃ m, (do_POST stC5 "/execute"
        (Except.ok (JsonBody.obj [("mode", PyVal.str "x")])) false).2
      = PostOutcome.response 400 (RespBody.failure m) :=
  ⟨(invalid_request_rejected_without_enqueue stC5
      (Except.ok (JsonBody.obj [("mode", PyVal.str "x")])) false
      (Or.inr (Or.inl ⟨JsonBody.obj [("mode", PyVal.str "x")], PyVal.str "x",
        PyVal.str "", PyVal.dict [], 30, rfl, by decide, by decide, by decide⟩))).1,
   (invalid_request_rejected_without_enqueue stC5
      (Except.ok (JsonBody.obj [("mode", PyVal.str "x")])) false
      (Or.inr (Or.inl ⟨JsonBody.obj [("mode", PyVal.str "x")], PyVal.str "x",
        PyVal.str "", PyVal.dict [], 30, rfl, by decide, by decide, by decide⟩))).2.2.2.2.2.1
     (Or.inr ⟨JsonBody.obj [("mode", PyVal.str "x")], PyVal.str "x",
        PyVal.str "", PyVal.dict [], 30, rfl, by decide, by decide, by decide⟩)⟩

/-- C6: the dispatcher invokes the interpreter on the namespace seeded with
the unreal handle, the context params and the context result container; it
depends on the interpreter only through that one call; a reassignment of the
result binding to a different object becomes the final result, while binding
the original object (or deleting the binding) keeps the original container
together with its in-place mutations. -/
theorem result_reassignment_honored (interp : Interp) (ctx : ExecutionContext)
    (ns : PyNamespace) (od : Dict)
    (h : interp ctx.script (initial_namespace ctx) = ExecOutcome.ok ns od) :
    initial_namespace ctx = ⟨true, ctx.params, some ctx.result⟩
    ∧ (∀ interp2 : Interp,
        interp2 ctx.script (initial_namespace ctx) = interp ctx.script (initial_namespace ctx) →
        execute_context interp2 ctx = execute_context interp ctx)
    ∧ (∀ o, ns.result_binding = some o → o.ident ≠ ctx.result.ident →
        (execute_context interp ctx).result = o)
    ∧ (∀ o, ns.result_binding = some o → o.ident = ctx.result.ident →
        (execute_context interp ctx).result = ⟨ctx.result.ident, od⟩)
    ∧ (ns.result_binding = none →
        (execute_context interp ctx).result = ⟨ctx.result.ident, od⟩) := by
  refine ⟨rfl, ?_, ?_, ?_, ?_⟩
  · intro interp2 he
    unfold execute_context
    rw [he]
  · intro o ho hne
    simp [execute_context, h, ho, hne]
  · intro o ho hid
    simp [execute_context, h, ho, hid]
  · intro hnone
    simp [execute_context, h, hnone]

def interpC6 : Interp := fun _ _ =>
  ExecOutcome.ok ⟨true, [], some ⟨99, [("y", "3")]⟩⟩ []

def ctxC6 : ExecutionContext := ExecutionContext.init "result = new dict" [] 30 7

/-- Witness for C6: a reassigned result binding with a different identity
becomes the final result. -/
theorem result_reassignment_honored_witness :
    (⟨99, [("y", "3")]⟩ : PyObj).ident ≠ ctxC6.result.ident
    ∧ (execute_context interpC6 ctxC6).result = ⟨99, [("y", "3")]⟩ :=
  ⟨by decide,
   (result_reassignment_honored interpC6 ctxC6 ⟨true, [], some ⟨99, [("y", "3")]⟩⟩ [] rfl).2.2.1
     ⟨99, [("y", "3")]⟩ rfl (by decide)⟩

lemma drain_queue_empty_noop (interp : Interp) (st : BridgeState) (lane : Lane)
    (h : (laneQueue st lane).items = []) : drain_queue interp st lane = st := by
  cases lane
  · cases st with | mk n hp eq gq =>
    cases eq with | mk its =>
    simp only [laneQueue] at h
    subst h
    rfl
  · cases st with | mk n hp eq gq =>
    cases gq with | mk its =>
    simp only [laneQueue] at h
    subst h
    rfl

/-- C7: each tick drains the editor lane and dispatches its batch, then the
game lane: the final heap is the result of executing the editor batch then
the game batch, each drained command exactly once; a lane that is empty
yields an empty batch and its drain step leaves the whole state unchanged,
and a tick with both lanes empty is the identity. -/
theorem tick_drains_lanes_in_order (interp : Interp) (st : BridgeState)
    (hnd : (st.editor_queue.items ++ st.game_queue.items).Nodup) :
    on_slate_post_tick interp st
        = drain_queue interp (drain_queue interp st Lane.editor) Lane.game
    ∧ (∀ j, (on_slate_post_tick interp st).heap j
          = if j ∈ st.editor_queue.items ++ st.game_queue.items
            then execute_context interp (st.heap j) else st.heap j)
    ∧ (st.editor_queue.items = [] →
        (st.editor_queue.drain).1 = [] ∧ drain_queue interp st Lane.editor = st)
    ∧ (st.game_queue.items = [] →
        (st.game_queue.drain).1 = [] ∧ drain_queue interp st Lane.game = st)
    ∧ (st.editor_queue.items = [] → st.game_queue.items = [] →
        on_slate_post_tick interp st = st) := by
  obtain ⟨hednd, hgnd, hdisj⟩ := List.nodup_append.mp hnd
  have hheap : ∀ j, (on_slate_post_tick interp st).heap j
      = run_batch interp st.game_queue.items
          (run_batch interp st.editor_queue.items st.heap) j := fun _ => rfl
  refine ⟨rfl, ?_, ?_, ?_, ?_⟩
  · intro j
    rw [hheap j, run_batch_apply interp _ hgnd _ j,
        run_batch_apply interp _ hednd st.heap j]
    by_cases hg : j ∈ st.game_queue.items
    · have he : j ∉ st.editor_queue.items := fun he => hdisj he hg
      simp [hg, he, List.mem_append]
    · by_cases he : j ∈ st.editor_queue.items <;>
        simp [hg, he, List.mem_append]
  · intro hed
    exact ⟨by rw [ThreadSafeQueue.drain, hed], drain_queue_empty_noop interp st Lane.editor hed⟩
  · intro hg
    exact ⟨by rw [ThreadSafeQueue.drain, hg], drain_queue_empty_noop interp st Lane.game hg⟩
  · intro hed hg
    unfold on_slate_post_tick
    rw [drain_queue_empty_noop interp st Lane.editor hed,
        drain_queue_empty_noop interp st Lane.game hg]

def stC7 : BridgeState := ⟨0, fun _ => ctxC3, ⟨[]⟩, ⟨[]⟩⟩

/-- Witness for C7: a tick on a state with both lanes empty is the
identity. -/
theorem tick_drains_lanes_in_order_witness :
    on_slate_post_tick interpC3 stC7 = stC7 :=
  (tick_drains_lanes_in_order interpC3 stC7 (by decide)).2.2.2.2 rfl rfl

/-- err_wf: in every context the program builds, the error slot is either
None or a nonempty string (the timeout message or a formatted traceback), so
the Python truthiness test agrees with the slot being set. -/
def err_wf (ctx : ExecutionContext) : Prop :=
  ctx.error = none ∨ ∃ s, ctx.error = some s ∧ s ≠ ""

/-- C8: for every reachable context, to_response returns the failure body
with the stored error when the error slot is set, and the success body with
the result contents when it is not; the invariant err_wf holds of a fresh
context and is preserved by wait and by the dispatcher. -/
theorem to_response_reflects_error (ctx : ExecutionContext) (fired : Bool) (interp : Interp)
    (script : String) (params : Dict) (t : ℚ) (rid : Nat)
    (h : err_wf ctx) :
    (∀ m, ctx.error = some m → ctx.to_response = RespBody.failure m)
    ∧ (ctx.error = none → ctx.to_response = RespBody.success ctx.result.data)
    ∧ err_wf (ExecutionContext.init script params t rid)
    ∧ err_wf (ctx.wait fired)
    ∧ err_wf (execute_context interp ctx) := by
  refine ⟨?_, ?_, Or.inl rfl, ?_, ?_⟩
  · intro m hm
    rcases h with hn | ⟨s, hs, hne⟩
    · rw [hm] at hn; cases hn
    · have hms : m = s := by rw [hm] at hs; injection hs
      exact to_response_of_ne_empty ctx m hm (hms ▸ hne)
  · intro hn
    simp [ExecutionContext.to_response, hn, pyTruthy]
  · cases fired
    · exact Or.inr ⟨timeout_message ctx.timeout, rfl, timeout_message_ne_empty _⟩
    · simpa [ExecutionContext.wait] using h
  · cases hI : interp ctx.script (initial_namespace ctx) with
    | ok ns od =>
      have he := execute_context_error_ok interp ctx ns od hI
      rcases h with hn | ⟨s, hs, hne⟩
      · exact Or.inl (by rw [he, hn])
      · exact Or.inr ⟨s, by rw [he, hs], hne⟩
    | fault exc =>
      exact Or.inr ⟨py_format_exc exc,
        execute_context_error_fault interp ctx exc hI, py_format_exc_ne_empty exc⟩

def ctxC8 : ExecutionContext := ⟨"s", [], 30, ⟨0, []⟩, some "E", false⟩

/-- Witness for C8 at a concrete context with a set error slot. -/
theorem to_response_reflects_error_witness :
    ctxC8.error = some "E" ∧ ctxC8.to_response = RespBody.failure "E" :=
  ⟨rfl,
   (to_response_reflects_error ctxC8 true interpC3 "" [] 30 0
      (Or.inr ⟨"E", rfl, by decide⟩)).1 "E" rfl⟩

/-- C9: the error slot is never cleared back to None: wait on a timeout
writes the timeout message, a successful dispatcher run leaves the slot
untouched and only a faulting run overwrites it (with a traceback); hence
after a timeout a later successful execution still leaves the context
reporting failure through to_response. -/
theorem error_is_sticky (ctx : ExecutionContext) (fired : Bool) (interp : Interp) :
    ((ctx.wait fired).error = none → ctx.error = none)
    ∧ ((execute_context interp ctx).error = none → ctx.error = none)
    ∧ (∀ ns od, interp ctx.script (initial_namespace ctx) = ExecOutcome.ok ns od →
        (execute_context interp ctx).error = ctx.error)
    ∧ (∀ exc, interp ctx.script (initial_namespace ctx) = ExecOutcome.fault exc →
        (execute_context interp ctx).error = some (py_format_exc exc))
    ∧ (∀ ns od,
        interp (ctx.wait false).script (initial_namespace (ctx.wait false))
          = ExecOutcome.ok ns od →
        (execute_context interp (ctx.wait false)).error
            = some (timeout_message ctx.timeout)
        ∧ (execute_context interp (ctx.wait false)).to_response
            = RespBody.failure (timeout_message ctx.timeout)) := by
  refine ⟨?_, ?_, ?_, ?_, ?_⟩
  · cases fired
    · intro hc
      rw [wait_timeout_eq] at hc
      simp at hc
    · intro hc
      simpa [ExecutionContext.wait] using hc
  · cases hI : interp ctx.script (initial_namespace ctx) with
    | ok ns od =>
      rw [execute_context_error_ok interp ctx ns od hI]
      exact fun x => x
    | fault exc =>
      rw [execute_context_error_fault interp ctx exc hI]
      intro hc
      cases hc
  · exact fun ns od hI => execute_context_error_ok interp ctx ns od hI
  · exact fun exc hI => execute_context_error_fault interp ctx exc hI
  · intro ns od hok
    have he : (execute_context interp (ctx.wait false)).error
        = some (timeout_message ctx.timeout) := by
      rw [execute_context_error_ok interp (ctx.wait false) ns od hok, wait_timeout_eq]
    exact ⟨he, to_response_of_ne_empty _ _ he (timeout_message_ne_empty _)⟩

def interpC9 : Interp := fun _ _ => ExecOutcome.ok ⟨true, [], none⟩ [("x", "1")]

def ctxC9 : ExecutionContext := ExecutionContext.init "result[x] = 1" [] 30 0

/-- Witness for C9: after a timeout, a later successful run still reports
failure. -/
theorem error_is_sticky_witness :
    (execute_context interpC9 (ctxC9.wait false)).to_response
      = RespBody.failure (timeout_message 30) :=
  ((error_is_sticky ctxC9 false interpC9).2.2.2.2 ⟨true, [], none⟩ [("x", "1")] rfl).2

lemma wait_preserves_fields (ctx : ExecutionContext) (fired : Bool) :
    (ctx.wait fired).script = ctx.script ∧ (ctx.wait fired).params = ctx.params
    ∧ (ctx.wait fired).timeout = ctx.timeout ∧ (ctx.wait fired).result = ctx.result
    ∧ (ctx.wait fired).done = ctx.done := by
  unfold ExecutionContext.wait
  split <;> simp

lemma decide_post_enqueue_editor (fields : List (String × PyVal))
    (script params : PyVal) (t : ℚ)
    (hx : extract_fields (JsonBody.obj fields)
      = some (PyVal.str "editor", script, params, t)) :
    decide_post "/execute" (Except.ok (JsonBody.obj fields))
      = PostDecision.enqueue Lane.editor (py_as_str script) (py_params_arg params) t := by
  unfold decide_post
  rw [if_neg (by decide)]
  simp only []
  rw [hx]
  simp only []
  rw [if_neg (by decide)]
  rw [if_pos (by decide)]

def stC10 : BridgeState := ⟨0, fun _ => ctxC3, ⟨[]⟩, ⟨[]⟩⟩

/-- C10 counterexample: the body with only timeout null is well-formed JSON
and omits the mode key, yet the handler raises at float() and the request
is never enqueued: the outcome is no HTTP response and the editor queue is
unchanged. -/
theorem post_body_defaults_counterexample :
    py_get [("timeout", PyVal.null)] "mode" (PyVal.str "editor") = PyVal.str "editor"
    ∧ py_float (py_get [("timeout", PyVal.null)] "timeout" (PyVal.num 30)) = none
    ∧ (do_POST stC10 "/execute"
        (Except.ok (JsonBody.obj [("timeout", PyVal.null)])) false).2
        = PostOutcome.uncaught
    ∧ (do_POST stC10 "/execute"
        (Except.ok (JsonBody.obj [("timeout", PyVal.null)]))
        false).1.editor_queue.items = stC10.editor_queue.items := by
  decide

/-- C10 (amended): a decoded JSON object body that omits the mode key and
whose timeout field (when present) float() can coerce is enqueued on the
editor lane (a 200 response, the fresh id appended to the editor queue, the
game queue untouched), and the enqueued context takes the defaults: empty
script when script is missing, empty params when params is missing, timeout
30 when timeout is missing. -/
theorem post_body_defaults (st : BridgeState) (fields : List (String × PyVal))
    (fired : Bool) (tval : ℚ)
    (hmode : fields.lookup "mode" = none)
    (ht : py_float (py_get fields "timeout" (PyVal.num 30)) = some tval) :
    (∃ rb, (do_POST st "/execute" (Except.ok (JsonBody.obj fields)) fired).2
        = PostOutcome.response 200 rb)
    ∧ (do_POST st "/execute" (Except.ok (JsonBody.obj fields)) fired).1.editor_queue.items
        = st.editor_queue.items ++ [st.next_id]
    ∧ (do_POST st "/execute" (Except.ok (JsonBody.obj fields)) fired).1.game_queue.items
        = st.game_queue.items
    ∧ ((do_POST st "/execute" (Except.ok (JsonBody.obj fields)) fired).1.heap st.next_id).script
        = py_as_str (py_get fields "script" (PyVal.str ""))
    ∧ ((do_POST st "/execute" (Except.ok (JsonBody.obj fields)) fired).1.heap st.next_id).params
        = py_params_arg (py_get fields "params" (PyVal.dict []))
    ∧ ((do_POST st "/execute" (Except.ok (JsonBody.obj fields)) fired).1.heap st.next_id).timeout
        = tval
    ∧ (fields.lookup "script" = none →
        ((do_POST st "/execute" (Except.ok (JsonBody.obj fields)) fired).1.heap st.next_id).script = "")
    ∧ (fields.lookup "params" = none →
        ((do_POST st "/execute" (Except.ok (JsonBody.obj fields)) fired).1.heap st.next_id).params = [])
    ∧ (fields.lookup "timeout" = none →
        ((do_POST st "/execute" (Except.ok (JsonBody.obj fields)) fired).1.heap st.next_id).timeout = 30) := by
  have hmg : py_get fields "mode" (PyVal.str "editor") = PyVal.str "editor" := by
    simp [py_get, hmode]
  have hx : extract_fields (JsonBody.obj fields)
      = some (PyVal.str "editor", py_get fields "script" (PyVal.str ""),
          py_get fields "params" (PyVal.dict []), tval) := by
    unfold extract_fields
    simp only []
    rw [ht]
    simp only []
    rw [hmg]
  have hd := decide_post_enqueue_editor fields _ _ tval hx
  have hheap : (do_POST st "/execute" (Except.ok (JsonBody.obj fields)) fired).1.heap st.next_id
      = (ExecutionContext.init (py_as_str (py_get fields "script" (PyVal.str "")))
          (py_params_arg (py_get fields "params" (PyVal.dict []))) tval st.next_id).wait fired := by
    rw [do_POST, hd]
    simp [pushLane, setLaneQueue, laneQueue, hUpdate]
  have hsc : ((do_POST st "/execute" (Except.ok (JsonBody.obj fields)) fired).1.heap st.next_id).script
      = py_as_str (py_get fields "script" (PyVal.str "")) := by
    rw [hheap]
    exact (wait_preserves_fields _ fired).1
  have hpa : ((do_POST st "/execute" (Except.ok (JsonBody.obj fields)) fired).1.heap st.next_id).params
      = py_params_arg (py_get fields "params" (PyVal.dict [])) := by
    rw [hheap]
    exact (wait_preserves_fields _ fired).2.1
  have hti : ((do_POST st "/execute" (Except.ok (JsonBody.obj fields)) fired).1.heap st.next_id).timeout
      = tval := by
    rw [hheap]
    exact (wait_preserves_fields _ fired).2.2.1
  refine ⟨⟨_, by rw [do_POST, hd]⟩,
      by rw [do_POST, hd]; simp [pushLane, setLaneQueue, laneQueue, ThreadSafeQueue.push],
      by rw [do_POST, hd]; simp [pushLane, setLaneQueue, laneQueue, ThreadSafeQueue.push],
      hsc, hpa, hti, ?_, ?_, ?_⟩
  · intro hs
    have hgs : py_get fields "script" (PyVal.str "") = PyVal.str "" := by simp [py_get, hs]
    rw [hsc, hgs]
    rfl
  · intro hp
    have hgp : py_get fields "params" (PyVal.dict []) = PyVal.dict [] := by simp [py_get, hp]
    rw [hpa, hgp]
    rfl
  · intro htm
    have hgt : py_get fields "timeout" (PyVal.num 30) = PyVal.num 30 := by simp [py_get, htm]
    rw [hgt] at ht
    have h30 : tval = 30 := by
      simp [py_float] at ht
      exact ht.symm
    rw [hti, h30]

/-- Witness for C10: the empty object body goes to the editor lane with the
default timeout. -/
theorem post_body_defaults_witness :
    (do_POST stC10 "/execute" (Except.ok (JsonBody.obj [])) false).1.editor_queue.items
      = stC10.editor_queue.items ++ [stC10.next_id]
    ∧ ((do_POST stC10 "/execute" (Except.ok (JsonBody.obj [])) false).1.heap
        stC10.next_id).timeout = 30 :=
  ⟨(post_body_defaults stC10 [] false 30 rfl rfl).2.1,
   (post_body_defaults stC10 [] false 30 rfl rfl).2.2.2.2.2.2.2.2 rfl⟩

end UnrealAI
